import Mathlib

/-!
Shallow embedding of the inbound plaintext passthrough proxy
(src/proxy/inbound_passthrough.rs): the listener constructor (`new`),
the accept loop (`run`), and the per-connection Authorization Gate
(`proxy_inbound_plaintext`).

The gate is modelled as a pure function from the shared proxy inputs
(with the external collaborators — directory, RBAC engine, connection
manager, sockets — abstracted as oracle functions) to the pair of
(trace of externally visible calls/events, returned result).  Claims
about ordering, release counts and telemetry are statements about the
trace; claims about error propagation are statements about the result.
-/

/-- A socket address: IP (modelled as a natural number) and port. -/
structure SocketAddr where
  ip : Nat
  port : Nat
  deriving DecidableEq, Repr

/-- Proxy deployment mode (config::ProxyMode). -/
inductive ProxyMode where
  | shared
  | dedicated
  deriving DecidableEq, Repr

/-- `(network, ip)` pair used as the directory lookup key
(state::workload::NetworkAddress). -/
structure NetworkAddress where
  network : String
  address : Nat
  deriving DecidableEq, Repr

/-- Opaque workload descriptor returned by the directory. -/
structure Workload where
  wid : Nat
  deriving DecidableEq, Repr

/-- Opaque service descriptor returned by the directory. -/
structure Service where
  sid : Nat
  deriving DecidableEq, Repr

/-- rbac::Connection — the immutable per-attempt record the RBAC
decision is made against.  `src_identity` is an opaque identity id. -/
structure Connection where
  src_identity : Option Nat
  src : SocketAddr
  dst_network : String
  dst : SocketAddr
  deriving DecidableEq, Repr

/-- state::ProxyRbacContext — connection plus opaque destination
workload info. -/
structure ProxyRbacContext where
  conn : Connection
  dest_workload_info : Option Nat
  deriving DecidableEq, Repr

/-- proxy::Error variants reachable from this file.  I/O errors carry
an opaque code. -/
inductive ProxyError where
  | bind (addr : SocketAddr)
  | selfCall
  | unknownDestination (ip : Nat)
  | connectionFailed (code : Nat)
  | relayFailed (code : Nat)
  deriving DecidableEq, Repr

deriving instance DecidableEq for Except

/-- Relevant fields of the proxy configuration (pi.cfg). -/
structure Config where
  proxy_mode : ProxyMode
  local_ip : Option Nat
  network : String
  enable_original_source : Option Bool
  inbound_plaintext_addr : SocketAddr

/-- Oracle for the external workload/service directory (pi.state):
`fetch_workload_services`, `fetch_workload` and `assert_rbac` are
external collaborators whose answers the gate branches on. -/
structure DemandProxyState where
  fetch_workload_services : NetworkAddress → Option (Workload × Service)
  fetch_workload : NetworkAddress → Option Workload
  assert_rbac : ProxyRbacContext → Bool

/-- Oracle for the connection manager's `track`: whether the entry is
still present when `track` is called (it may have been revoked during
the RBAC suspension).  `register`/`release` are side effects recorded
in the trace, so they need no oracle. -/
structure ConnectionManager where
  track_present : ProxyRbacContext → Bool

/-- Outcome of the select between the relay future and the
per-connection cancellation receiver: whichever completes first. -/
inductive RelayOutcome where
  | relayFirst (r : Except ProxyError Unit)
  | cancelledFirst

/-- Oracles for socket operations: the result of `freebind_connect`
and the outcome of the relay race. -/
structure NetOracle where
  connect : Option Nat → SocketAddr → Except ProxyError Unit
  relay_outcome : RelayOutcome

/-- Transparent-proxy metadata carried by the accepted stream:
the original (pre-redirect) destination, and optionally the original
source IP. -/
structure StreamMeta where
  orig_dst : SocketAddr
  orig_src : Option Nat

/-- The shared inputs bundle (ProxyInputs) handed to every
connection task. -/
structure ProxyInputs where
  cfg : Config
  state : DemandProxyState
  proxy_workload_info : Option Nat
  conn_mgr : ConnectionManager
  net : NetOracle

/-- Externally visible calls and events of one gate execution, in
program order.  `lookupDst` is the `fetch_workload_services` call,
`lookupSrc` the best-effort `fetch_workload` call for telemetry
attribution; `telemetryClose` is the deferred close event fired when
the `increment_defer` guard is dropped. -/
inductive Event where
  | lookupDst (addr : NetworkAddress) (found : Bool)
  | register (ctx : ProxyRbacContext)
  | rbacCheck (ctx : ProxyRbacContext) (allowed : Bool)
  | release (ctx : ProxyRbacContext)
  | track (ctx : ProxyRbacContext) (present : Bool)
  | connectAttempt (src : Option Nat) (dst : SocketAddr) (ok : Bool)
  | lookupSrc (addr : NetworkAddress) (found : Bool)
  | telemetryOpen
  | relayStart
  | relayDone (ok : Bool)
  | cancelled
  | telemetryClose
  deriving DecidableEq, Repr

/-- The Authorization Gate: InboundPassthrough::proxy_inbound_plaintext,
lines 106–211 of src/proxy/inbound_passthrough.rs, as a pure function
from the oracles to (event trace, result). -/
def InboundPassthrough.proxy_inbound_plaintext
    (pi : ProxyInputs) (source : SocketAddr) (inbound : StreamMeta) :
    List Event × Except ProxyError Unit :=
  let orig := inbound.orig_dst
  -- Check if it is a recursive call when proxy mode is Shared.
  if pi.cfg.proxy_mode = ProxyMode.shared ∧ some orig.ip = pi.cfg.local_ip then
    ([], .error .selfCall)
  else
    let network_addr : NetworkAddress :=
      { network := pi.cfg.network, address := orig.ip }
    match pi.state.fetch_workload_services network_addr with
    | none =>
      ([.lookupDst network_addr false], .error (.unknownDestination orig.ip))
    | some (_upstream, _upstream_service) =>
      let conn : Connection :=
        { src_identity := none
          src := source
          dst_network := pi.cfg.network
          dst := orig }
      let rbac_ctx : ProxyRbacContext :=
        { conn := conn, dest_workload_info := pi.proxy_workload_info }
      -- register before assert_rbac so the connection is tracked
      -- during its entire valid span
      let tr0 : List Event := [.lookupDst network_addr true, .register rbac_ctx]
      if pi.state.assert_rbac rbac_ctx = false then
        (tr0 ++ [.rbacCheck rbac_ctx false, .release rbac_ctx], .ok ())
      else
        let tr1 := tr0 ++ [.rbacCheck rbac_ctx true]
        if pi.conn_mgr.track_present rbac_ctx = false then
          -- entry vanished while authorization was suspended
          (tr1 ++ [.track rbac_ctx false], .ok ())
        else
          let tr2 := tr1 ++ [.track rbac_ctx true]
          let source_ip := inbound.orig_src
          let orig_src : Option Nat :=
            if pi.cfg.enable_original_source.getD false then source_ip else none
          match pi.net.connect orig_src orig with
          | .error e =>
            (tr2 ++ [.connectAttempt orig_src orig false], .error e)
          | .ok _ =>
            let tr3 := tr2 ++ [.connectAttempt orig_src orig true]
            let src_lookup : List Event :=
              match source_ip with
              | some sip =>
                let na : NetworkAddress :=
                  { network := pi.cfg.network, address := sip }
                [.lookupSrc na (pi.state.fetch_workload na).isSome]
              | none => []
            let tr4 := tr3 ++ src_lookup ++ [.telemetryOpen, .relayStart]
            match pi.net.relay_outcome with
            | .relayFirst (.ok _) =>
              (tr4 ++ [.relayDone true, .release rbac_ctx, .telemetryClose], .ok ())
            | .relayFirst (.error e) =>
              (tr4 ++ [.relayDone false, .release rbac_ctx, .telemetryClose],
                .error e)
            | .cancelledFirst =>
              (tr4 ++ [.cancelled, .telemetryClose], .ok ())

/-- Event classifiers used to state trace properties. -/
def isRelease : Event → Bool
  | .release _ => true
  | _ => false

def isRegister : Event → Bool
  | .register _ => true
  | _ => false

def isRbacCheck : Event → Bool
  | .rbacCheck _ _ => true
  | _ => false

def isDenied : Event → Bool
  | .rbacCheck _ allowed => !allowed
  | _ => false

def isTrackAbsent : Event → Bool
  | .track _ present => !present
  | _ => false

def isConnectAttempt : Event → Bool
  | .connectAttempt _ _ _ => true
  | _ => false

def isLookupDstMiss : Event → Bool
  | .lookupDst _ found => !found
  | _ => false

def isRelayStart : Event → Bool
  | .relayStart => true
  | _ => false

def isRelayDone : Event → Bool
  | .relayDone _ => true
  | _ => false

def isOpen : Event → Bool
  | .telemetryOpen => true
  | _ => false

def isClose : Event → Bool
  | .telemetryClose => true
  | _ => false

/-- Number of connection_manager.release calls in a trace. -/
def releases (tr : List Event) : Nat := tr.countP (fun e => isRelease e)

/-- Number of connection_manager.register calls in a trace. -/
def registers (tr : List Event) : Nat := tr.countP (fun e => isRegister e)

/-- Number of telemetry connection-open events in a trace. -/
def opens (tr : List Event) : Nat := tr.countP (fun e => isOpen e)

/-- Number of telemetry connection-close events in a trace. -/
def closes (tr : List Event) : Nat := tr.countP (fun e => isClose e)

/-!
The accept loop (`run`, lines 63–104).  The loop iterations and the
racing drain signal are linearised into one schedule of loop events;
`tokio::select!` dropping the accept future on drain, and
`tokio::spawn` producing tasks detached from the accept loop, are
modelled by `run` returning the set of spawned connection tasks
untouched when the loop stops.
-/

/-- One observable step of the accept loop: a successful accept (with
an id for the spawned connection task), a failed accept (tagged with
whether `util::is_runtime_shutdown` holds for the error), or the drain
signal winning the select. -/
inductive LoopEvent where
  | acceptOk (c : Nat)
  | acceptErr (is_shutdown : Bool)
  | drainSignaled
  deriving DecidableEq, Repr

/-- InboundPassthrough::run: fold the schedule, spawning one detached
task per accepted socket, stopping on runtime shutdown or on the drain
signal; the returned list is the set of spawned (still live) tasks
when the listener task exits. -/
def InboundPassthrough.run : List LoopEvent → List Nat → List Nat
  | [], spawned => spawned
  | .acceptOk c :: rest, spawned => InboundPassthrough.run rest (spawned ++ [c])
  | .acceptErr true :: _, spawned => spawned
  | .acceptErr false :: rest, spawned => InboundPassthrough.run rest spawned
  | .drainSignaled :: _, spawned => spawned

/-- The connection tasks spawned by a schedule fragment. -/
def spawnedTasks (evs : List LoopEvent) : List Nat :=
  evs.filterMap fun e =>
    match e with
    | .acceptOk c => some c
    | _ => none

/-- Whether a loop event terminates the accept loop. -/
def stopsLoop : LoopEvent → Bool
  | .acceptOk _ => false
  | .acceptErr s => s
  | .drainSignaled => true

/-- InboundPassthrough::new (lines 37–61): bind the listener (failure
is fatal), detect the transparent capability via maybe_set_transparent
(oracle `transparent_result`), and override cfg.enable_original_source
with the detected value. -/
def InboundPassthrough.new (pi : ProxyInputs) (bind_ok : Bool)
    (transparent_result : Except ProxyError Bool) : Except ProxyError ProxyInputs :=
  if bind_ok = false then
    .error (.bind pi.cfg.inbound_plaintext_addr)
  else
    match transparent_result with
    | .error e => .error e
    | .ok transparent =>
      .ok { pi with cfg := { pi.cfg with enable_original_source := some transparent } }

/-!
Concrete inputs used to evaluate the gate on specific executions.
-/

/-- A concrete peer (source) socket address. -/
def addrA : SocketAddr := { ip := 10, port := 34000 }

/-- A concrete original-destination socket address. -/
def addrB : SocketAddr := { ip := 20, port := 8080 }

/-- A concrete configuration: shared proxy mode, own local IP 99. -/
def cfg0 : Config :=
  { proxy_mode := ProxyMode.shared
    local_ip := some 99
    network := "testnet"
    enable_original_source := some true
    inbound_plaintext_addr := { ip := 1, port := 15006 } }

/-- Concrete proxy inputs with every oracle answer chosen by the four
arguments: the RBAC verdict, whether `track` still finds the entry,
the result of the upstream connect, and the relay race outcome. -/
def mkInputs (rbac_allow track_ok : Bool) (connect_result : Except ProxyError Unit)
    (outcome : RelayOutcome) : ProxyInputs :=
  { cfg := cfg0
    state :=
      { fetch_workload_services := fun _ => some ({ wid := 1 }, { sid := 2 })
        fetch_workload := fun _ => some { wid := 3 }
        assert_rbac := fun _ => rbac_allow }
    proxy_workload_info := none
    conn_mgr := { track_present := fun _ => track_ok }
    net := { connect := fun _ _ => connect_result, relay_outcome := outcome } }

/-- Concrete stream metadata: destination `addrB`, original source 10. -/
def st0 : StreamMeta := { orig_dst := addrB, orig_src := some 10 }

/-!
Claims.
-/

/-- Claim C1 (counterexample): an execution of the Authorization Gate
in which `register` is called but `release` is never called before the
function returns — the track-returns-absent exit (lines 150–156)
returns `Ok(())` without releasing, refuting "release is called
exactly once on every exit path". -/
theorem C1_counterexample_track_absent_no_release :
    registers (InboundPassthrough.proxy_inbound_plaintext
      (mkInputs true false (.ok ()) RelayOutcome.cancelledFirst) addrA st0).1 = 1 ∧
    releases (InboundPassthrough.proxy_inbound_plaintext
      (mkInputs true false (.ok ()) RelayOutcome.cancelledFirst) addrA st0).1 = 0 := by
  decide

/-- Claim C1 (amended): the gate calls `release` exactly once when the
RBAC check denies or when the relay finishes (normally or with an
error), and never otherwise — in particular the track-returns-absent,
upstream-connect-failure and per-connection-cancellation exits return
without a gate-side `release`; release calls never exceed register
calls. -/
theorem C1_release_only_on_deny_or_relay_finish
    (pi : ProxyInputs) (source : SocketAddr) (inbound : StreamMeta) :
    releases (InboundPassthrough.proxy_inbound_plaintext pi source inbound).1 =
      (if (InboundPassthrough.proxy_inbound_plaintext pi source inbound).1.any
            (fun e => isDenied e || isRelayDone e)
       then 1 else 0) ∧
    releases (InboundPassthrough.proxy_inbound_plaintext pi source inbound).1 ≤
      registers (InboundPassthrough.proxy_inbound_plaintext pi source inbound).1 := by
  unfold InboundPassthrough.proxy_inbound_plaintext
  dsimp only
  repeat' split
  all_goals simp_all [releases, registers, isRelease, isRegister, isDenied, isRelayDone]

/-- Claim C2: when the upstream connect fails after approval and a
successful `track`, the gate propagates the connect error (that half
of the claim holds) but returns without calling `release` (line
167–168 uses the try operator with no release on the error path),
leaking the registry entry for a registered connection. -/
theorem C2_connect_failure_error_propagated_without_release :
    (InboundPassthrough.proxy_inbound_plaintext
      (mkInputs true true (.error (.connectionFailed 5)) (RelayOutcome.relayFirst (.ok ())))
      addrA st0).2 = .error (.connectionFailed 5) ∧
    registers (InboundPassthrough.proxy_inbound_plaintext
      (mkInputs true true (.error (.connectionFailed 5)) (RelayOutcome.relayFirst (.ok ())))
      addrA st0).1 = 1 ∧
    releases (InboundPassthrough.proxy_inbound_plaintext
      (mkInputs true true (.error (.connectionFailed 5)) (RelayOutcome.relayFirst (.ok ())))
      addrA st0).1 = 0 := by
  decide

/-- Claim C3: if `track` reports the entry absent (revoked during the
RBAC suspension), the gate opens no upstream connection, starts no
relay, and returns success with no error. -/
theorem C3_track_absent_silent_deny
    (pi : ProxyInputs) (source : SocketAddr) (inbound : StreamMeta)
    (h : (InboundPassthrough.proxy_inbound_plaintext pi source inbound).1.any
          (fun e => isTrackAbsent e) = true) :
    (InboundPassthrough.proxy_inbound_plaintext pi source inbound).2 = .ok () ∧
    (InboundPassthrough.proxy_inbound_plaintext pi source inbound).1.any
      (fun e => isConnectAttempt e) = false ∧
    (InboundPassthrough.proxy_inbound_plaintext pi source inbound).1.any
      (fun e => isRelayStart e) = false := by
  unfold InboundPassthrough.proxy_inbound_plaintext at h ⊢
  dsimp only at h ⊢
  repeat' split at h
  all_goals repeat' split
  all_goals simp_all [isTrackAbsent, isConnectAttempt, isRelayStart]

/-- Claim C3 witness: a concrete revoked-during-authorization
execution. -/
theorem C3_witness :
    (InboundPassthrough.proxy_inbound_plaintext
      (mkInputs true false (.ok ()) (RelayOutcome.relayFirst (.ok ()))) addrA st0).2
      = .ok () ∧
    (InboundPassthrough.proxy_inbound_plaintext
      (mkInputs true false (.ok ()) (RelayOutcome.relayFirst (.ok ()))) addrA st0).1.any
      (fun e => isConnectAttempt e) = false ∧
    (InboundPassthrough.proxy_inbound_plaintext
      (mkInputs true false (.ok ()) (RelayOutcome.relayFirst (.ok ()))) addrA st0).1.any
      (fun e => isRelayStart e) = false :=
  C3_track_absent_silent_deny
    (mkInputs true false (.ok ()) (RelayOutcome.relayFirst (.ok ()))) addrA st0 (by decide)

/-- Claim C4: whenever the gate evaluates the RBAC check, it has
called `register` strictly before: both happen exactly once, and the
trace prefix preceding the first RBAC-check event already contains the
register call. -/
theorem C4_register_precedes_rbac_check
    (pi : ProxyInputs) (source : SocketAddr) (inbound : StreamMeta)
    (h : (InboundPassthrough.proxy_inbound_plaintext pi source inbound).1.any
          (fun e => isRbacCheck e) = true) :
    registers (InboundPassthrough.proxy_inbound_plaintext pi source inbound).1 = 1 ∧
    (InboundPassthrough.proxy_inbound_plaintext pi source inbound).1.countP
      (fun e => isRbacCheck e) = 1 ∧
    ((InboundPassthrough.proxy_inbound_plaintext pi source inbound).1.takeWhile
      (fun e => !(isRbacCheck e))).any (fun e => isRegister e) = true := by
  unfold InboundPassthrough.proxy_inbound_plaintext at h ⊢
  dsimp only at h ⊢
  repeat' split at h
  all_goals repeat' split
  all_goals simp_all [registers, isRegister, isRbacCheck, List.takeWhile]

/-- Claim C4 witness: a concrete denied execution reaching the check. -/
theorem C4_witness :
    registers (InboundPassthrough.proxy_inbound_plaintext
      (mkInputs false true (.ok ()) (RelayOutcome.relayFirst (.ok ()))) addrA st0).1 = 1 ∧
    (InboundPassthrough.proxy_inbound_plaintext
      (mkInputs false true (.ok ()) (RelayOutcome.relayFirst (.ok ()))) addrA st0).1.countP
      (fun e => isRbacCheck e) = 1 ∧
    ((InboundPassthrough.proxy_inbound_plaintext
      (mkInputs false true (.ok ()) (RelayOutcome.relayFirst (.ok ()))) addrA st0).1.takeWhile
      (fun e => !(isRbacCheck e))).any (fun e => isRegister e) = true :=
  C4_register_precedes_rbac_check
    (mkInputs false true (.ok ()) (RelayOutcome.relayFirst (.ok ()))) addrA st0 (by decide)

/-- Claim C5: an RBAC denial releases the registry entry exactly once,
starts no relay, emits no telemetry-open event, and returns success. -/
theorem C5_rbac_denial_silent_drop
    (pi : ProxyInputs) (source : SocketAddr) (inbound : StreamMeta)
    (h : (InboundPassthrough.proxy_inbound_plaintext pi source inbound).1.any
          (fun e => isDenied e) = true) :
    (InboundPassthrough.proxy_inbound_plaintext pi source inbound).2 = .ok () ∧
    releases (InboundPassthrough.proxy_inbound_plaintext pi source inbound).1 = 1 ∧
    (InboundPassthrough.proxy_inbound_plaintext pi source inbound).1.any
      (fun e => isRelayStart e) = false ∧
    (InboundPassthrough.proxy_inbound_plaintext pi source inbound).1.any
      (fun e => isOpen e) = false := by
  unfold InboundPassthrough.proxy_inbound_plaintext at h ⊢
  dsimp only at h ⊢
  repeat' split at h
  all_goals repeat' split
  all_goals simp_all [releases, isRelease, isDenied, isRelayStart, isOpen]

/-- Claim C5 witness: a concrete denied execution. -/
theorem C5_witness :
    (InboundPassthrough.proxy_inbound_plaintext
      (mkInputs false true (.ok ()) RelayOutcome.cancelledFirst) addrA st0).2 = .ok () ∧
    releases (InboundPassthrough.proxy_inbound_plaintext
      (mkInputs false true (.ok ()) RelayOutcome.cancelledFirst) addrA st0).1 = 1 ∧
    (InboundPassthrough.proxy_inbound_plaintext
      (mkInputs false true (.ok ()) RelayOutcome.cancelledFirst) addrA st0).1.any
      (fun e => isRelayStart e) = false ∧
    (InboundPassthrough.proxy_inbound_plaintext
      (mkInputs false true (.ok ()) RelayOutcome.cancelledFirst) addrA st0).1.any
      (fun e => isOpen e) = false :=
  C5_rbac_denial_silent_drop
    (mkInputs false true (.ok ()) RelayOutcome.cancelledFirst) addrA st0 (by decide)

/-- Claim C6: in shared proxy mode, a destination equal to the local
IP is rejected with SelfCall before anything else happens — the trace
is empty, so no directory lookup, registration or connect occurs. -/
theorem C6_self_call_rejected_first
    (pi : ProxyInputs) (source : SocketAddr) (inbound : StreamMeta)
    (h1 : pi.cfg.proxy_mode = ProxyMode.shared)
    (h2 : pi.cfg.local_ip = some inbound.orig_dst.ip) :
    InboundPassthrough.proxy_inbound_plaintext pi source inbound
      = ([], .error .selfCall) := by
  unfold InboundPassthrough.proxy_inbound_plaintext
  simp [h1, h2]

/-- Claim C6 witness: a concrete self-call execution (local IP 20,
destination IP 20, shared mode). -/
theorem C6_witness :
    InboundPassthrough.proxy_inbound_plaintext
      { mkInputs true true (.ok ()) (RelayOutcome.relayFirst (.ok ())) with
        cfg := { cfg0 with local_ip := some 20 } } addrA st0
      = ([], .error .selfCall) :=
  C6_self_call_rejected_first
    { mkInputs true true (.ok ()) (RelayOutcome.relayFirst (.ok ())) with
      cfg := { cfg0 with local_ip := some 20 } } addrA st0 (by decide) (by decide)

/-- Claim C7: when the directory lookup for the destination misses,
the gate fails with UnknownDestination carrying the destination IP,
never registers, never attempts the upstream connect, and emits no
telemetry-open event. -/
theorem C7_unknown_destination_rejected
    (pi : ProxyInputs) (source : SocketAddr) (inbound : StreamMeta)
    (h : (InboundPassthrough.proxy_inbound_plaintext pi source inbound).1.any
          (fun e => isLookupDstMiss e) = true) :
    (InboundPassthrough.proxy_inbound_plaintext pi source inbound).2
      = .error (.unknownDestination inbound.orig_dst.ip) ∧
    registers (InboundPassthrough.proxy_inbound_plaintext pi source inbound).1 = 0 ∧
    (InboundPassthrough.proxy_inbound_plaintext pi source inbound).1.any
      (fun e => isConnectAttempt e) = false ∧
    (InboundPassthrough.proxy_inbound_plaintext pi source inbound).1.any
      (fun e => isOpen e) = false := by
  unfold InboundPassthrough.proxy_inbound_plaintext at h ⊢
  dsimp only at h ⊢
  repeat' split at h
  all_goals repeat' split
  all_goals simp_all [registers, isRegister, isLookupDstMiss, isConnectAttempt, isOpen]

/-- Claim C7 witness: a concrete execution whose destination is
unknown to the directory. -/
theorem C7_witness :
    (InboundPassthrough.proxy_inbound_plaintext
      { mkInputs true true (.ok ()) (RelayOutcome.relayFirst (.ok ())) with
        state :=
          { fetch_workload_services := fun _ => none
            fetch_workload := fun _ => none
            assert_rbac := fun _ => true } } addrA st0).2
      = .error (.unknownDestination st0.orig_dst.ip) ∧
    registers (InboundPassthrough.proxy_inbound_plaintext
      { mkInputs true true (.ok ()) (RelayOutcome.relayFirst (.ok ())) with
        state :=
          { fetch_workload_services := fun _ => none
            fetch_workload := fun _ => none
            assert_rbac := fun _ => true } } addrA st0).1 = 0 ∧
    (InboundPassthrough.proxy_inbound_plaintext
      { mkInputs true true (.ok ()) (RelayOutcome.relayFirst (.ok ())) with
        state :=
          { fetch_workload_services := fun _ => none
            fetch_workload := fun _ => none
            assert_rbac := fun _ => true } } addrA st0).1.any
      (fun e => isConnectAttempt e) = false ∧
    (InboundPassthrough.proxy_inbound_plaintext
      { mkInputs true true (.ok ()) (RelayOutcome.relayFirst (.ok ())) with
        state :=
          { fetch_workload_services := fun _ => none
            fetch_workload := fun _ => none
            assert_rbac := fun _ => true } } addrA st0).1.any
      (fun e => isOpen e) = false :=
  C7_unknown_destination_rejected
    { mkInputs true true (.ok ()) (RelayOutcome.relayFirst (.ok ())) with
      state :=
        { fetch_workload_services := fun _ => none
          fetch_workload := fun _ => none
          assert_rbac := fun _ => true } } addrA st0 (by decide)

/-- Claim C8: every execution has as many telemetry-close events as
telemetry-open events, and whenever an open event is emitted, exactly
one close event fires — on the relay-completion, relay-error and
cancellation exits alike. -/
theorem C8_telemetry_close_matches_open
    (pi : ProxyInputs) (source : SocketAddr) (inbound : StreamMeta) :
    opens (InboundPassthrough.proxy_inbound_plaintext pi source inbound).1 =
      closes (InboundPassthrough.proxy_inbound_plaintext pi source inbound).1 ∧
    ((InboundPassthrough.proxy_inbound_plaintext pi source inbound).1.any
        (fun e => isOpen e) = true →
      closes (InboundPassthrough.proxy_inbound_plaintext pi source inbound).1 = 1) := by
  unfold InboundPassthrough.proxy_inbound_plaintext
  dsimp only
  repeat' split
  all_goals simp_all [opens, closes, isOpen, isClose]

/-- Claim C8 witness: a concrete cancelled execution with one open and
one close event. -/
theorem C8_witness :
    closes (InboundPassthrough.proxy_inbound_plaintext
      (mkInputs true true (.ok ()) RelayOutcome.cancelledFirst) addrA st0).1 = 1 :=
  (C8_telemetry_close_matches_open
    (mkInputs true true (.ok ()) RelayOutcome.cancelledFirst) addrA st0).2 (by decide)

/-- Helper for claim C9: with an arbitrary accumulator of already
spawned tasks, a drain signal ends the loop with exactly the tasks
spawned so far, ignoring everything scheduled after it. -/
theorem run_drain_keeps_spawned (pre post : List LoopEvent) (acc : List Nat)
    (h : ∀ e ∈ pre, stopsLoop e = false) :
    InboundPassthrough.run (pre ++ LoopEvent.drainSignaled :: post) acc
      = acc ++ spawnedTasks pre := by
  induction pre generalizing acc with
  | nil => simp [InboundPassthrough.run, spawnedTasks]
  | cons e rest ih =>
    have hrest : ∀ x ∈ rest, stopsLoop x = false := fun x hx =>
      h x (List.mem_cons_of_mem _ hx)
    cases e with
    | acceptOk c =>
      simp only [List.cons_append, InboundPassthrough.run, List.append_eq]
      rw [ih (acc ++ [c]) hrest]
      simp [spawnedTasks]
    | acceptErr s =>
      have hs : s = false := h (.acceptErr s) (List.mem_cons_self _ _)
      subst hs
      simp only [List.cons_append, InboundPassthrough.run, List.append_eq]
      rw [ih acc hrest]
      simp [spawnedTasks]
    | drainSignaled =>
      have := h .drainSignaled (List.mem_cons_self _ _)
      simp [stopsLoop] at this

/-- Claim C9: if the drain signal fires while the accept loop is
running (after a schedule `pre` of non-terminating loop events), the
loop exits and its result is exactly the tasks spawned before the
drain — no event after the drain is processed (no new acceptance) and
no already-spawned task is removed. -/
theorem C9_drain_stops_accept_keeps_tasks (pre post : List LoopEvent)
    (h : ∀ e ∈ pre, stopsLoop e = false) :
    InboundPassthrough.run (pre ++ LoopEvent.drainSignaled :: post) []
      = spawnedTasks pre := by
  simpa using run_drain_keeps_spawned pre post [] h

/-- Claim C9 witness: two connections accepted (plus one tolerated
accept error) before the drain; a third acceptance scheduled after the
drain never happens, and tasks 1 and 2 survive. -/
theorem C9_witness :
    InboundPassthrough.run
      ([LoopEvent.acceptOk 1, LoopEvent.acceptErr false, LoopEvent.acceptOk 2]
        ++ LoopEvent.drainSignaled :: [LoopEvent.acceptOk 3]) []
      = spawnedTasks [LoopEvent.acceptOk 1, LoopEvent.acceptErr false, LoopEvent.acceptOk 2] :=
  C9_drain_stops_accept_keeps_tasks
    [LoopEvent.acceptOk 1, LoopEvent.acceptErr false, LoopEvent.acceptOk 2]
    [LoopEvent.acceptOk 3] (by decide)

/-- Claim C10: when `new` returns successfully with detected
transparent capability `t`, the stored configuration has
enable_original_source equal to `some t` — whatever was configured
before — and the gate's unwrap_or_default over it yields exactly `t`
(never the fallback default). -/
theorem C10_new_sets_enable_original_source
    (pi : ProxyInputs) (bind_ok : Bool) (t : Bool) (pi' : ProxyInputs)
    (h : InboundPassthrough.new pi bind_ok (.ok t) = .ok pi') :
    pi'.cfg.enable_original_source = some t ∧
    pi'.cfg.enable_original_source.getD false = t := by
  unfold InboundPassthrough.new at h
  by_cases hb : bind_ok = false
  · simp [hb] at h
  · simp only [hb, if_neg] at h
    cases h
    simp

/-- The proxy inputs as rewritten by a successful `new` that detected
transparent capability `true`, starting from a configuration that had
enable_original_source set to `some false`. -/
def piAfterNewDetectedTrue : ProxyInputs :=
  { mkInputs true true (.ok ()) (RelayOutcome.relayFirst (.ok ())) with
    cfg := { cfg0 with enable_original_source := some true } }

/-- Claim C10 witness: constructing the listener over a configuration
that previously had enable_original_source set to `some false`, with
detected capability `true`, yields `some true`. -/
theorem C10_witness :
    (InboundPassthrough.new
      { mkInputs true true (.ok ()) (RelayOutcome.relayFirst (.ok ())) with
        cfg := { cfg0 with enable_original_source := some false } }
      true (.ok true) = Except.ok piAfterNewDetectedTrue) ∧
    piAfterNewDetectedTrue.cfg.enable_original_source = some true ∧
    piAfterNewDetectedTrue.cfg.enable_original_source.getD false = true :=
  ⟨rfl,
    C10_new_sets_enable_original_source
      { mkInputs true true (.ok ()) (RelayOutcome.relayFirst (.ok ())) with
        cfg := { cfg0 with enable_original_source := some false } }
      true true piAfterNewDetectedTrue rfl⟩
